import Mathlib

/-!
Verification of the driver-process supervision routine (`startDriverBin`) and
the IPC message handler of `src/main/main.ts`.

The routine is embedded as a state machine.  One invocation spawns a process
(modelled by an opaque handle `prog : Nat`, passing a port number `port`), and
then reacts to a stream of events delivered by the event loop:

* `stdoutData d`  — a chunk `d` on the child's standard output
  (handler at lines 28-49 of `main.ts`);
* `stderrData d`  — a chunk `d` on the child's standard error (lines 50-53);
* `errorEvt e`    — the process-level `error` event (lines 54-61);
* `closeEvt`      — the `close` event (lines 62-64, logging only);
* `exitEvt c`     — the `exit` event with code `c : Option Int`
  (`null` is `none`; lines 65-82);
* `portOk` / `portErr e` — completion of the `waitPort` probe started by the
  first stdout chunk (lines 37-48).

The promise is modelled by `settled : Option Settle` with first-settle-wins
semantics (es6-promise ignores later calls), plus `settleCalls`, the number
of times `resolve` or `reject` was invoked, so that "never settles twice"
can be stated about the calls themselves and not only about the promise.
-/

/-- Reason carried by a rejection of the `startDriverBin` promise, one
constructor per `reject` site in the source. -/
inductive RejectReason where
  /-- the `catch` block around `spawn` (line 85): `spawn` threw. -/
  | spawnThrow (err : String)
  /-- the process `error` event handler (line 60). -/
  | procError (err : String)
  /-- the `exit` handler with a non-zero (or null) code (line 80). -/
  | nonZeroExit (code : Option Int)
  /-- the `exit` handler with code 0 and a buffer starting with `Error:`
  (line 74); carries the buffer text. -/
  | errorMarker (buf : String)
  /-- failure of the `waitPort` probe (line 47). -/
  | portFail (err : String)
  deriving DecidableEq, Repr

/-- Exit codes are rendered as in the template literal of line 80, where a
null code prints as the string `null`. -/
def exitCodeText : Option Int → String
  | some n => toString n
  | none => "null"

/-- The error message each rejection carries, exactly as built in the
source. -/
def renderError : RejectReason → String
  | .spawnThrow e => e
  | .procError e => e
  | .nonZeroExit c => "Exit code: " ++ exitCodeText c
  | .errorMarker buf => buf
  | .portFail e => "Failed to start ChromeDriver: " ++ e

/-- A settlement of the promise: `resolve(program)` carries the spawned
process handle, `reject` carries a reason. -/
inductive Settle where
  | resolve (prog : Nat)
  | reject (r : RejectReason)
  deriving DecidableEq, Repr

/-- Events observed by one invocation of `startDriverBin`. -/
inductive Event where
  | stdoutData (d : String)
  | stderrData (d : String)
  | errorEvt (err : String)
  | closeEvt
  | exitEvt (code : Option Int)
  | portOk
  | portErr (err : String)
  deriving DecidableEq, Repr

/-- Events emitted by the child process itself (as opposed to the two
`waitPort` callback events). -/
def Event.fromProcess : Event → Bool
  | .stdoutData _ => true
  | .stderrData _ => true
  | .errorEvt _ => true
  | .closeEvt => true
  | .exitEvt _ => true
  | .portOk => false
  | .portErr _ => false

/-- State of one invocation of `startDriverBin`.  `stderr` is the single
mutable string buffer of line 27, to which BOTH the stdout handler (line 29)
and the stderr handler (line 51) append.  `probeStarted`, `probePort`,
`probeHost`, `probeTimeout` record the `waitPort` call of lines 37-41;
`probeDone` records that its callback already ran. -/
structure DriverState where
  isFirst : Bool
  stderr : String
  probeStarted : Bool
  probePort : Option Nat
  probeHost : Option String
  probeTimeout : Option Nat
  probeDone : Bool
  settled : Option Settle
  settleCalls : Nat
  deriving DecidableEq, Repr

/-- State at entry of the executor, lines 26-27. -/
def initState : DriverState :=
  { isFirst := true
    stderr := ""
    probeStarted := false
    probePort := none
    probeHost := none
    probeTimeout := none
    probeDone := false
    settled := none
    settleCalls := 0 }

/-- One call of `resolve` or `reject`: the call is counted, and the promise
records it only if it is the first settlement (es6-promise semantics). -/
def settle (s : DriverState) (v : Settle) : DriverState :=
  { s with
    settleCalls := s.settleCalls + 1
    settled := match s.settled with
      | none => some v
      | some w => some w }

/-- The check `stderr.indexOf('Error:') === 0` of line 72: `indexOf`
returns 0 exactly when the pattern occurs at position 0. -/
def errIndexZero (buf : String) : Bool :=
  buf.startsWith "Error:"

/-- One event-handler execution, translated clause by clause from
lines 28-82 of `main.ts`. -/
def step (prog port : Nat) (s : DriverState) : Event → DriverState
  | .stdoutData d =>
    -- line 29: append to the shared buffer before the guard check
    let s := { s with stderr := s.stderr ++ d }
    if !s.isFirst then s
    else
      -- lines 35-41: clear the guard, then start the waitPort probe
      { s with
        isFirst := false
        probeStarted := true
        probePort := some port
        probeHost := some "localhost"
        probeTimeout := some 3000 }
  | .stderrData d =>
    -- lines 50-53: append and log; no guard check, no settlement
    { s with stderr := s.stderr ++ d }
  | .errorEvt e =>
    if !s.isFirst then s
    else settle { s with isFirst := false } (.reject (.procError e))
  | .closeEvt =>
    -- lines 62-64: logging only
    s
  | .exitEvt c =>
    if !s.isFirst then s
    else
      let s := { s with isFirst := false }
      if c = some 0 then
        if errIndexZero s.stderr then settle s (.reject (.errorMarker s.stderr))
        else settle s (.resolve prog)
      else settle s (.reject (.nonZeroExit c))
  | .portOk =>
    -- line 42-44: waitPort resolved
    let s := { s with probeDone := true }
    settle s (.resolve prog)
  | .portErr e =>
    -- lines 45-48: waitPort rejected
    let s := { s with probeDone := true }
    settle s (.reject (.portFail e))

/-- Run a list of events from a state. -/
def run (prog port : Nat) (s : DriverState) : List Event → DriverState
  | [] => s
  | e :: t => run prog port (step prog port s e) t

/-- An event is admissible in a state: a `waitPort` callback can only fire
once, after the probe was started; process events are always admissible. -/
def okEvent (s : DriverState) : Event → Bool
  | .portOk => s.probeStarted && !s.probeDone
  | .portErr _ => s.probeStarted && !s.probeDone
  | _ => true

/-- A list of events is a possible interleaving from a state. -/
def validFrom (prog port : Nat) (s : DriverState) : List Event → Bool
  | [] => true
  | e :: t => okEvent s e && validFrom prog port (step prog port s e) t

/-- Whole invocation of `startDriverBin`: either `spawn` throws (the `catch`
of lines 83-86 rejects at once, and no handlers ever exist) or the spawned
process's event interleaving is run. -/
def startDriverBinModel (so : Except String Nat) (port : Nat)
    (t : List Event) : DriverState :=
  match so with
  | .error e => settle initState (.reject (.spawnThrow e))
  | .ok prog => run prog port initState t

/-- Admissible whole-invocation traces. -/
def validModel (so : Except String Nat) (port : Nat) (t : List Event) : Bool :=
  match so with
  | .error _ => t.isEmpty
  | .ok prog => validFrom prog port initState t

/-- The trace contains a terminating process event (`error` or `exit`). -/
def containsTerm (t : List Event) : Bool :=
  t.any fun e =>
    match e with
    | .errorEvt _ => true
    | .exitEvt _ => true
    | _ => false

/-- Concatenation, in arrival order, of the payloads of all stdout and
stderr data chunks of a trace. -/
def dataConcat : List Event → String
  | [] => ""
  | .stdoutData d :: t => d ++ dataConcat t
  | .stderrData d :: t => d ++ dataConcat t
  | _ :: t => dataConcat t

/-- Observable behaviour of one execution of the `ipc-example` handler,
lines 100-138 of `main.ts`: the replies sent on the channel, the messages
logged by the `catch` block, and the error of an uncaught rejection of the
async handler, if any. -/
structure IpcOutcome where
  replies : List String
  caughtLogs : List String
  escaped : Option String
  deriving DecidableEq, Repr

/-- The `ipc-example` handler, lines 100-138.  `driverResult` is the outcome
of the awaited `startDriverBin` promise (line 101) and `automation` the
outcome of the `webdriverio` block (lines 103-133, yielding the user agent).
The `await` of line 101 stands OUTSIDE the `try` of lines 102-136, so a
rejection there leaves the handler as an uncaught rejection before any reply;
a failure of the automation block is caught and logged at line 135, and the
reply of line 137 is sent afterwards in either case. -/
def ipcHandler (driverResult : Except String Nat)
    (automation : Except String String) : IpcOutcome :=
  match driverResult with
  | .error e => { replies := [], caughtLogs := [], escaped := some e }
  | .ok _ =>
    match automation with
    | .error e =>
      { replies := ["pong"]
        caughtLogs := ["ERROR IN WEBDRIVER " ++ e]
        escaped := none }
    | .ok _ => { replies := ["pong"], caughtLogs := [], escaped := none }

/-- Reachability invariant of the driver state machine: the guard flag,
probe flags and settlement counter evolve in lock step. -/
structure DriverInv (prog port : Nat) (s : DriverState) : Prop where
  calls_le : s.settleCalls ≤ 1
  first_calls : s.isFirst = true → s.settleCalls = 0
  first_probe : s.isFirst = true → s.probeStarted = false
  pending_calls : s.probeStarted = true → s.probeDone = false →
    s.settleCalls = 0
  done_calls : s.probeDone = true → s.settleCalls = 1
  consumed_calls : s.isFirst = false → s.probeStarted = false →
    s.settleCalls = 1
  done_started : s.probeDone = true → s.probeStarted = true
  probe_meta : s.probeStarted = true →
    s.probePort = some port ∧ s.probeHost = some "localhost" ∧
      s.probeTimeout = some 3000
  none_of_zero : s.settleCalls = 0 → s.settled = none
  resolve_prog : ∀ v, s.settled = some (.resolve v) → v = prog
  marker_shape : ∀ b, s.settled = some (.reject (.errorMarker b)) →
    errIndexZero b = true
  nonzero_shape : ∀ c, s.settled = some (.reject (.nonZeroExit c)) →
    ¬ c = some 0
  portfail_probe : ∀ e, s.settled = some (.reject (.portFail e)) →
    s.probeStarted = true


theorem inv_init (prog port : Nat) : DriverInv prog port initState := by
  constructor <;> simp [initState]

theorem step_stdout_of_first {s : DriverState} (prog port : Nat) (d : String)
    (hf : s.isFirst = true) :
    step prog port s (.stdoutData d) =
      { s with
        stderr := s.stderr ++ d
        isFirst := false
        probeStarted := true
        probePort := some port
        probeHost := some "localhost"
        probeTimeout := some 3000 } := by
  simp [step, hf]

theorem step_stdout_of_notFirst {s : DriverState} (prog port : Nat)
    (d : String) (hf : s.isFirst = false) :
    step prog port s (.stdoutData d) = { s with stderr := s.stderr ++ d } := by
  simp [step, hf]

theorem step_stderr {s : DriverState} (prog port : Nat) (d : String) :
    step prog port s (.stderrData d) = { s with stderr := s.stderr ++ d } :=
  rfl

theorem step_error_of_first {s : DriverState} (prog port : Nat) (e : String)
    (hf : s.isFirst = true) :
    step prog port s (.errorEvt e) =
      settle { s with isFirst := false } (.reject (.procError e)) := by
  simp [step, hf]

theorem step_error_of_notFirst {s : DriverState} (prog port : Nat)
    (e : String) (hf : s.isFirst = false) :
    step prog port s (.errorEvt e) = s := by
  simp [step, hf]

theorem step_close {s : DriverState} (prog port : Nat) :
    step prog port s .closeEvt = s :=
  rfl

theorem step_exit_of_notFirst {s : DriverState} (prog port : Nat)
    (c : Option Int) (hf : s.isFirst = false) :
    step prog port s (.exitEvt c) = s := by
  simp [step, hf]

theorem step_exit_marker {s : DriverState} (prog port : Nat)
    (hf : s.isFirst = true) (hm : errIndexZero s.stderr = true) :
    step prog port s (.exitEvt (some 0)) =
      settle { s with isFirst := false } (.reject (.errorMarker s.stderr)) := by
  simp [step, hf, hm]

theorem step_exit_clean {s : DriverState} (prog port : Nat)
    (hf : s.isFirst = true) (hm : errIndexZero s.stderr = false) :
    step prog port s (.exitEvt (some 0)) =
      settle { s with isFirst := false } (.resolve prog) := by
  simp [step, hf, hm]

theorem step_exit_nonzero {s : DriverState} (prog port : Nat) {c : Option Int}
    (hf : s.isFirst = true) (hz : ¬ c = some 0) :
    step prog port s (.exitEvt c) =
      settle { s with isFirst := false } (.reject (.nonZeroExit c)) := by
  simp [step, hf, hz]

theorem step_portOk {s : DriverState} (prog port : Nat) :
    step prog port s .portOk =
      settle { s with probeDone := true } (.resolve prog) :=
  rfl

theorem step_portErr {s : DriverState} (prog port : Nat) (e : String) :
    step prog port s (.portErr e) =
      settle { s with probeDone := true } (.reject (.portFail e)) :=
  rfl

theorem inv_step (prog port : Nat) {s : DriverState} {e : Event}
    (hok : okEvent s e = true) (h : DriverInv prog port s) :
    DriverInv prog port (step prog port s e) := by
  obtain ⟨h1, h2, h3, h4, h5, h6, h7, h8, h9, h10, h11, h12, h13⟩ := h
  cases e with
  | stdoutData d =>
    cases hf : s.isFirst with
    | true =>
      have hc0 : s.settleCalls = 0 := h2 hf
      have hp0 : s.probeStarted = false := h3 hf
      have hsd : s.settled = none := h9 hc0
      have hd0 : s.probeDone = false := by
        cases hd : s.probeDone with
        | false => rfl
        | true => rw [h7 hd] at hp0; exact absurd hp0 (by simp)
      rw [step_stdout_of_first prog port d hf]
      constructor <;> simp [hc0, hp0, hsd, hd0]
    | false =>
      rw [step_stdout_of_notFirst prog port d hf]
      exact ⟨h1, h2, h3, h4, h5, h6, h7, h8, h9, h10, h11, h12, h13⟩
  | stderrData d =>
    rw [step_stderr prog port d]
    exact ⟨h1, h2, h3, h4, h5, h6, h7, h8, h9, h10, h11, h12, h13⟩
  | errorEvt err =>
    cases hf : s.isFirst with
    | true =>
      have hc0 : s.settleCalls = 0 := h2 hf
      have hp0 : s.probeStarted = false := h3 hf
      have hsd : s.settled = none := h9 hc0
      have hd0 : s.probeDone = false := by
        cases hd : s.probeDone with
        | false => rfl
        | true => rw [h7 hd] at hp0; exact absurd hp0 (by simp)
      rw [step_error_of_first prog port err hf]
      constructor <;> simp [settle, hsd, hc0, hp0, hd0]
    | false =>
      rw [step_error_of_notFirst prog port err hf]
      exact ⟨h1, h2, h3, h4, h5, h6, h7, h8, h9, h10, h11, h12, h13⟩
  | closeEvt =>
    rw [step_close prog port]
    exact ⟨h1, h2, h3, h4, h5, h6, h7, h8, h9, h10, h11, h12, h13⟩
  | exitEvt c =>
    cases hf : s.isFirst with
    | true =>
      have hc0 : s.settleCalls = 0 := h2 hf
      have hp0 : s.probeStarted = false := h3 hf
      have hsd : s.settled = none := h9 hc0
      have hd0 : s.probeDone = false := by
        cases hd : s.probeDone with
        | false => rfl
        | true => rw [h7 hd] at hp0; exact absurd hp0 (by simp)
      by_cases hz : c = some 0
      · subst hz
        cases hm : errIndexZero s.stderr with
        | true =>
          rw [step_exit_marker prog port hf hm]
          constructor <;> simp [settle, hsd, hc0, hp0, hd0, hm]
        | false =>
          rw [step_exit_clean prog port hf hm]
          constructor <;> simp [settle, hsd, hc0, hp0, hd0]
      · rw [step_exit_nonzero prog port hf hz]
        constructor <;> simp [settle, hsd, hc0, hp0, hd0, hz]
    | false =>
      rw [step_exit_of_notFirst prog port c hf]
      exact ⟨h1, h2, h3, h4, h5, h6, h7, h8, h9, h10, h11, h12, h13⟩
  | portOk =>
    have hs : s.probeStarted = true := by
      simp [okEvent] at hok; exact hok.1
    have hd : s.probeDone = false := by
      simp [okEvent] at hok; exact hok.2
    have hc0 : s.settleCalls = 0 := h4 hs hd
    have hsd : s.settled = none := h9 hc0
    have hf : s.isFirst = false := by
      cases hf : s.isFirst with
      | false => rfl
      | true => rw [h3 hf] at hs; exact absurd hs (by simp)
    obtain ⟨hm1, hm2, hm3⟩ := h8 hs
    rw [step_portOk prog port]
    constructor <;> simp [settle, hsd, hc0, hs, hf, hm1, hm2, hm3]
  | portErr err =>
    have hs : s.probeStarted = true := by
      simp [okEvent] at hok; exact hok.1
    have hd : s.probeDone = false := by
      simp [okEvent] at hok; exact hok.2
    have hc0 : s.settleCalls = 0 := h4 hs hd
    have hsd : s.settled = none := h9 hc0
    have hf : s.isFirst = false := by
      cases hf : s.isFirst with
      | false => rfl
      | true => rw [h3 hf] at hs; exact absurd hs (by simp)
    obtain ⟨hm1, hm2, hm3⟩ := h8 hs
    rw [step_portErr prog port err]
    constructor <;> simp [settle, hsd, hc0, hs, hf, hm1, hm2, hm3]

theorem inv_run (prog port : Nat) {s : DriverState} {t : List Event}
    (hv : validFrom prog port s t = true) (h : DriverInv prog port s) :
    DriverInv prog port (run prog port s t) := by
  induction t generalizing s with
  | nil => exact h
  | cons e t ih =>
    rw [validFrom] at hv
    obtain ⟨hok, hv⟩ := Bool.and_eq_true_iff.mp hv
    exact ih hv (inv_step prog port hok h)

theorem run_append (prog port : Nat) (s : DriverState) (a b : List Event) :
    run prog port s (a ++ b) = run prog port (run prog port s a) b := by
  induction a generalizing s with
  | nil => rfl
  | cons e a ih => rw [List.cons_append, run, run, ih]

theorem step_isFirst_mono (prog port : Nat) {s : DriverState} (e : Event)
    (hf : s.isFirst = false) : (step prog port s e).isFirst = false := by
  cases e <;> simp [step, hf, settle]

theorem run_isFirst_mono (prog port : Nat) {s : DriverState}
    (t : List Event) (hf : s.isFirst = false) :
    (run prog port s t).isFirst = false := by
  induction t generalizing s with
  | nil => exact hf
  | cons e t ih => exact ih (step_isFirst_mono prog port e hf)

theorem step_term_isFirst (prog port : Nat) {s : DriverState} {e : Event}
    (ht : (match e with
      | .errorEvt _ => true
      | .exitEvt _ => true
      | _ => false) = true) :
    (step prog port s e).isFirst = false := by
  cases e <;> simp at ht
  case errorEvt err =>
    cases hf : s.isFirst with
    | false => rw [step_error_of_notFirst prog port err hf]; exact hf
    | true => rw [step_error_of_first prog port err hf]; rfl
  case exitEvt c =>
    cases hf : s.isFirst with
    | false => rw [step_exit_of_notFirst prog port c hf]; exact hf
    | true =>
      by_cases hz : c = some 0
      · subst hz
        cases hm : errIndexZero s.stderr with
        | true => rw [step_exit_marker prog port hf hm]; rfl
        | false => rw [step_exit_clean prog port hf hm]; rfl
      · rw [step_exit_nonzero prog port hf hz]; rfl

theorem run_term_isFirst (prog port : Nat) {s : DriverState}
    {t : List Event} (ht : containsTerm t = true) :
    (run prog port s t).isFirst = false := by
  induction t generalizing s with
  | nil => simp [containsTerm] at ht
  | cons e t ih =>
    rw [containsTerm, List.any_cons] at ht
    rcases Bool.or_eq_true_iff.mp ht with he | ht
    · exact run_isFirst_mono prog port t (step_term_isFirst prog port he)
    · exact ih ht

theorem step_fromProcess_frozen (prog port : Nat) {s : DriverState}
    {e : Event} (hf : s.isFirst = false) (hp : e.fromProcess = true) :
    (step prog port s e).settled = s.settled ∧
    (step prog port s e).settleCalls = s.settleCalls ∧
    (step prog port s e).probeStarted = s.probeStarted ∧
    (step prog port s e).probeDone = s.probeDone ∧
    (step prog port s e).isFirst = false := by
  cases e <;> simp [Event.fromProcess] at hp <;> simp [step, hf]

theorem run_fromProcess_frozen (prog port : Nat) {s : DriverState}
    {u : List Event} (hf : s.isFirst = false)
    (hp : u.all Event.fromProcess = true) :
    (run prog port s u).settled = s.settled ∧
    (run prog port s u).settleCalls = s.settleCalls ∧
    (run prog port s u).probeStarted = s.probeStarted ∧
    (run prog port s u).probeDone = s.probeDone ∧
    (run prog port s u).isFirst = false := by
  induction u generalizing s with
  | nil => exact ⟨rfl, rfl, rfl, rfl, hf⟩
  | cons e u ih =>
    rw [List.all_cons] at hp
    obtain ⟨he, hu⟩ := Bool.and_eq_true_iff.mp hp
    obtain ⟨q1, q2, q3, q4, q5⟩ := step_fromProcess_frozen prog port hf he
    obtain ⟨r1, r2, r3, r4, r5⟩ := ih q5 hu
    rw [run] at *
    exact ⟨r1.trans q1, r2.trans q2, r3.trans q3, r4.trans q4, r5⟩

theorem settled_after {s : DriverState} (v : Settle) (hsd : s.settled = none) :
    (settle s v).settled = some v := by
  simp [settle, hsd]

/-- C1: for every invocation of `startDriverBin` and every admissible
interleaving of its signal sources, `resolve`/`reject` is called at most
once, hence the promise never settles a second time; and it is called
exactly once whenever the interleaving contains a process `error` or `exit`
event (which the runtime guarantees eventually) and any started `waitPort`
probe has delivered its result (which its fixed 3000 ms timeout
guarantees). -/
theorem c1_promise_settles_exactly_once (so : Except String Nat) (port : Nat)
    (t : List Event) (hv : validModel so port t = true) :
    (startDriverBinModel so port t).settleCalls ≤ 1 ∧
    (containsTerm t = true →
      ((startDriverBinModel so port t).probeStarted = true →
        (startDriverBinModel so port t).probeDone = true) →
      (startDriverBinModel so port t).settleCalls = 1) := by
  cases so with
  | error e => constructor <;> simp [startDriverBinModel, settle, initState]
  | ok prog =>
    have hv' : validFrom prog port initState t = true := hv
    have hinv := inv_run prog port hv' (inv_init prog port)
    have hm : startDriverBinModel (.ok prog) port t =
        run prog port initState t := rfl
    rw [hm]
    refine ⟨hinv.calls_le, ?_⟩
    intro hterm hprobe
    have hf : (run prog port initState t).isFirst = false :=
      run_term_isFirst prog port hterm
    cases hp : (run prog port initState t).probeStarted with
    | false => exact hinv.consumed_calls hf hp
    | true => exact hinv.done_calls (hprobe hp)

theorem c1_witness :
    (startDriverBinModel (.ok 5) 4445
        [.stdoutData "ready", .exitEvt (some 0), .portOk]).settleCalls ≤ 1 ∧
    (containsTerm [.stdoutData "ready", .exitEvt (some 0), .portOk] = true →
      ((startDriverBinModel (.ok 5) 4445
          [.stdoutData "ready", .exitEvt (some 0), .portOk]).probeStarted =
            true →
        (startDriverBinModel (.ok 5) 4445
          [.stdoutData "ready", .exitEvt (some 0), .portOk]).probeDone =
            true) →
      (startDriverBinModel (.ok 5) 4445
        [.stdoutData "ready", .exitEvt (some 0), .portOk]).settleCalls = 1) :=
  c1_promise_settles_exactly_once (.ok 5) 4445
    [.stdoutData "ready", .exitEvt (some 0), .portOk] (by decide)

/-- C2: when the `exit` event with code 0 is the first meaningful signal
(the guard flag is still set in the state reached so far), the handler
inspects the accumulated buffer for the leading marker `Error:`; if found it
rejects and the rejection's error message is exactly that text, otherwise it
resolves. -/
theorem c2_clean_exit_checks_error_marker (prog port : Nat) (t : List Event)
    (hv : validFrom prog port initState t = true)
    (hf : (run prog port initState t).isFirst = true) :
    (errIndexZero (run prog port initState t).stderr = true →
      (step prog port (run prog port initState t)
          (.exitEvt (some 0))).settled =
        some (.reject (.errorMarker (run prog port initState t).stderr)) ∧
      renderError (.errorMarker (run prog port initState t).stderr) =
        (run prog port initState t).stderr) ∧
    (errIndexZero (run prog port initState t).stderr = false →
      (step prog port (run prog port initState t)
          (.exitEvt (some 0))).settled = some (.resolve prog)) := by
  have hinv := inv_run prog port hv (inv_init prog port)
  have hsd : (run prog port initState t).settled = none :=
    hinv.none_of_zero (hinv.first_calls hf)
  constructor
  · intro hm
    rw [step_exit_marker prog port hf hm]
    exact ⟨settled_after _ hsd, rfl⟩
  · intro hm
    rw [step_exit_clean prog port hf hm]
    exact settled_after _ hsd

theorem c2_witness :
    (errIndexZero (run 3 4445 initState [.stderrData "Error: boom"]).stderr =
        true →
      (step 3 4445 (run 3 4445 initState [.stderrData "Error: boom"])
          (.exitEvt (some 0))).settled =
        some (.reject (.errorMarker
          (run 3 4445 initState [.stderrData "Error: boom"]).stderr)) ∧
      renderError (.errorMarker
          (run 3 4445 initState [.stderrData "Error: boom"]).stderr) =
        (run 3 4445 initState [.stderrData "Error: boom"]).stderr) ∧
    (errIndexZero (run 3 4445 initState [.stderrData "Error: boom"]).stderr =
        false →
      (step 3 4445 (run 3 4445 initState [.stderrData "Error: boom"])
          (.exitEvt (some 0))).settled = some (.resolve 3)) :=
  c2_clean_exit_checks_error_marker 3 4445 [.stderrData "Error: boom"]
    (by decide) (by decide)

/-- C3: on the first stdout chunk (guard flag still set) the handler starts
the `waitPort` probe on the given port, host `localhost`, timeout 3000 ms;
a successful probe settles the promise with `resolve(program)`, a failed
probe rejects with the message `Failed to start ChromeDriver: ` followed by
the probe error. -/
theorem c3_first_stdout_polls_port (prog port : Nat) (t : List Event)
    (d err : String)
    (hv : validFrom prog port initState t = true)
    (hf : (run prog port initState t).isFirst = true) :
    (step prog port (run prog port initState t)
        (.stdoutData d)).probeStarted = true ∧
    (step prog port (run prog port initState t)
        (.stdoutData d)).probePort = some port ∧
    (step prog port (run prog port initState t)
        (.stdoutData d)).probeHost = some "localhost" ∧
    (step prog port (run prog port initState t)
        (.stdoutData d)).probeTimeout = some 3000 ∧
    (step prog port
        (step prog port (run prog port initState t) (.stdoutData d))
        .portOk).settled = some (.resolve prog) ∧
    (step prog port
        (step prog port (run prog port initState t) (.stdoutData d))
        (.portErr err)).settled = some (.reject (.portFail err)) ∧
    renderError (.portFail err) = "Failed to start ChromeDriver: " ++ err := by
  have hinv := inv_run prog port hv (inv_init prog port)
  have hsd : (run prog port initState t).settled = none :=
    hinv.none_of_zero (hinv.first_calls hf)
  rw [step_stdout_of_first prog port d hf]
  refine ⟨rfl, rfl, rfl, rfl, ?_, ?_, rfl⟩
  · rw [step_portOk prog port]
    exact settled_after _ hsd
  · rw [step_portErr prog port err]
    exact settled_after _ hsd

theorem c3_witness :
    (step 7 9515 (run 7 9515 initState []) (.stdoutData "Starting")).probeStarted
        = true ∧
    (step 7 9515 (run 7 9515 initState []) (.stdoutData "Starting")).probePort
        = some 9515 ∧
    (step 7 9515 (run 7 9515 initState []) (.stdoutData "Starting")).probeHost
        = some "localhost" ∧
    (step 7 9515 (run 7 9515 initState [])
        (.stdoutData "Starting")).probeTimeout = some 3000 ∧
    (step 7 9515 (step 7 9515 (run 7 9515 initState [])
        (.stdoutData "Starting")) .portOk).settled = some (.resolve 7) ∧
    (step 7 9515 (step 7 9515 (run 7 9515 initState [])
        (.stdoutData "Starting")) (.portErr "timed out")).settled =
      some (.reject (.portFail "timed out")) ∧
    renderError (.portFail "timed out") =
      "Failed to start ChromeDriver: " ++ "timed out" :=
  c3_first_stdout_polls_port 7 9515 [] "Starting" "timed out"
    (by decide) (by decide)

theorem run_probe_decides (prog port : Nat) {s : DriverState}
    (u1 u2 : List Event) (err : String)
    (hf : s.isFirst = false) (hsd : s.settled = none)
    (h1 : u1.all Event.fromProcess = true)
    (h2 : u2.all Event.fromProcess = true) :
    (run prog port s (u1 ++ .portOk :: u2)).settled =
      some (.resolve prog) ∧
    (run prog port s (u1 ++ .portErr err :: u2)).settled =
      some (.reject (.portFail err)) := by
  constructor <;> rw [run_append prog port]
  · obtain ⟨q1, _, _, _, q5⟩ := run_fromProcess_frozen prog port hf h1
    rw [run, step_portOk prog port]
    have hnone : (run prog port s u1).settled = none := q1.trans hsd
    have hstep : (settle { run prog port s u1 with probeDone := true }
        (Settle.resolve prog)).isFirst = false := q5
    obtain ⟨r1, _, _, _, _⟩ := run_fromProcess_frozen prog port hstep h2
    rw [r1]
    exact settled_after _ hnone
  · obtain ⟨q1, _, _, _, q5⟩ := run_fromProcess_frozen prog port hf h1
    rw [run, step_portErr prog port err]
    have hnone : (run prog port s u1).settled = none := q1.trans hsd
    have hstep : (settle { run prog port s u1 with probeDone := true }
        (Settle.reject (RejectReason.portFail err))).isFirst = false := q5
    obtain ⟨r1, _, _, _, _⟩ := run_fromProcess_frozen prog port hstep h2
    rw [r1]
    exact settled_after _ hnone

/-- C10: when the first meaningful signal is a stdout chunk, the step that
handles it clears the guard flag and starts the probe without settling; any
following process events (in particular `error` and `exit`) leave the
settlement untouched, and the final outcome is exactly the probe's result:
`resolve(program)` on success, reject with the port failure otherwise. -/
theorem c10_outcome_decided_by_probe (prog port : Nat)
    (t u1 u2 : List Event) (d err : String)
    (hv : validFrom prog port initState t = true)
    (hf : (run prog port initState t).isFirst = true)
    (h1 : u1.all Event.fromProcess = true)
    (h2 : u2.all Event.fromProcess = true) :
    (step prog port (run prog port initState t) (.stdoutData d)).isFirst =
      false ∧
    (step prog port (run prog port initState t)
        (.stdoutData d)).probeStarted = true ∧
    (step prog port (run prog port initState t) (.stdoutData d)).settled =
      none ∧
    (run prog port
        (step prog port (run prog port initState t) (.stdoutData d))
        (u1 ++ .portOk :: u2)).settled = some (.resolve prog) ∧
    (run prog port
        (step prog port (run prog port initState t) (.stdoutData d))
        (u1 ++ .portErr err :: u2)).settled =
      some (.reject (.portFail err)) := by
  have hinv := inv_run prog port hv (inv_init prog port)
  have hsd : (run prog port initState t).settled = none :=
    hinv.none_of_zero (hinv.first_calls hf)
  have hf' : (step prog port (run prog port initState t)
      (.stdoutData d)).isFirst = false := by
    rw [step_stdout_of_first prog port d hf]
  have hsd' : (step prog port (run prog port initState t)
      (.stdoutData d)).settled = none := by
    rw [step_stdout_of_first prog port d hf]; exact hsd
  have hps : (step prog port (run prog port initState t)
      (.stdoutData d)).probeStarted = true := by
    rw [step_stdout_of_first prog port d hf]
  obtain ⟨w1, w2⟩ :=
    run_probe_decides prog port u1 u2 err hf' hsd' h1 h2
  exact ⟨hf', hps, hsd', w1, w2⟩

theorem c10_witness :
    (step 2 4445 (run 2 4445 initState [.stderrData "warming up"])
        (.stdoutData "listening")).isFirst = false ∧
    (step 2 4445 (run 2 4445 initState [.stderrData "warming up"])
        (.stdoutData "listening")).probeStarted = true ∧
    (step 2 4445 (run 2 4445 initState [.stderrData "warming up"])
        (.stdoutData "listening")).settled = none ∧
    (run 2 4445
        (step 2 4445 (run 2 4445 initState [.stderrData "warming up"])
          (.stdoutData "listening"))
        ([.exitEvt (some 1)] ++ .portOk :: [.closeEvt])).settled =
      some (.resolve 2) ∧
    (run 2 4445
        (step 2 4445 (run 2 4445 initState [.stderrData "warming up"])
          (.stdoutData "listening"))
        ([.exitEvt (some 1)] ++ .portErr "timed out" :: [.closeEvt])).settled =
      some (.reject (.portFail "timed out")) :=
  c10_outcome_decided_by_probe 2 4445 [.stderrData "warming up"]
    [.exitEvt (some 1)] [.closeEvt] "listening" "timed out"
    (by decide) (by decide) (by decide) (by decide)

/-- C4: every rejection reason reachable by an admissible invocation is a
process-level spawn failure (the synchronous `spawn` throw or the `error`
event), a non-zero (or null) exit code, an `Error:`-prefixed buffer on a
clean exit, or a port-probe failure whose probe carried the fixed 3000 ms
timeout; no other shape of rejection exists. -/
theorem c4_rejection_taxonomy (so : Except String Nat) (port : Nat)
    (t : List Event) (r : RejectReason)
    (hv : validModel so port t = true)
    (hr : (startDriverBinModel so port t).settled = some (.reject r)) :
    (∃ e, r = .spawnThrow e) ∨ (∃ e, r = .procError e) ∨
    (∃ c, r = .nonZeroExit c ∧ ¬ c = some 0) ∨
    (∃ b, r = .errorMarker b ∧ errIndexZero b = true) ∨
    (∃ e, r = .portFail e ∧
      (startDriverBinModel so port t).probeTimeout = some 3000) := by
  cases so with
  | error e =>
    simp [startDriverBinModel, settle, initState] at hr
    exact Or.inl ⟨e, hr.symm⟩
  | ok prog =>
    have hv' : validFrom prog port initState t = true := hv
    have hinv := inv_run prog port hv' (inv_init prog port)
    have hm : startDriverBinModel (.ok prog) port t =
        run prog port initState t := rfl
    rw [hm] at hr ⊢
    cases r with
    | spawnThrow e => exact Or.inl ⟨e, rfl⟩
    | procError e => exact Or.inr (Or.inl ⟨e, rfl⟩)
    | nonZeroExit c =>
      exact Or.inr (Or.inr (Or.inl ⟨c, rfl, hinv.nonzero_shape c hr⟩))
    | errorMarker b =>
      exact Or.inr (Or.inr (Or.inr (Or.inl ⟨b, rfl, hinv.marker_shape b hr⟩)))
    | portFail e =>
      exact Or.inr (Or.inr (Or.inr (Or.inr ⟨e, rfl,
        (hinv.probe_meta (hinv.portfail_probe e hr)).2.2⟩)))

theorem c4_witness :
    (∃ e, RejectReason.nonZeroExit (some 1) = .spawnThrow e) ∨
    (∃ e, RejectReason.nonZeroExit (some 1) = .procError e) ∨
    (∃ c, RejectReason.nonZeroExit (some 1) = .nonZeroExit c ∧
      ¬ c = some 0) ∨
    (∃ b, RejectReason.nonZeroExit (some 1) = .errorMarker b ∧
      errIndexZero b = true) ∨
    (∃ e, RejectReason.nonZeroExit (some 1) = .portFail e ∧
      (startDriverBinModel (.ok 3) 4445
          [.exitEvt (some 1)]).probeTimeout = some 3000) :=
  c4_rejection_taxonomy (.ok 3) 4445 [.exitEvt (some 1)]
    (.nonZeroExit (some 1)) (by decide) (by decide)

/-- C5 counterexample: after the `error` event consumed the guard flag, a
further stderr data chunk still mutates the state (it appends to the
accumulated buffer), so it is not true that every subsequent signal has no
effect on the routine's state. -/
theorem c5_counterexample :
    ¬ (step 1 4445 (run 1 4445 initState [.errorEvt "boom"])
        (.stderrData "x") = run 1 4445 initState [.errorEvt "boom"]) := by
  decide

/-- C5 amended: once the guard flag is cleared, every further process event
(stdout data, stderr data, error, close, exit) leaves the settlement, the
call counter, the probe flags and the flag itself unchanged — it cannot
affect the outcome — although data chunks may still grow the (no longer
inspected) buffer. -/
theorem c5_amended_guard_freezes_outcome (prog port : Nat)
    (s : DriverState) (e : Event)
    (hf : s.isFirst = false) (hp : e.fromProcess = true) :
    (step prog port s e).settled = s.settled ∧
    (step prog port s e).settleCalls = s.settleCalls ∧
    (step prog port s e).probeStarted = s.probeStarted ∧
    (step prog port s e).probeDone = s.probeDone ∧
    (step prog port s e).isFirst = false :=
  step_fromProcess_frozen prog port hf hp

theorem c5_witness :
    (step 1 4445 (run 1 4445 initState [.errorEvt "boom"])
        (.exitEvt (some 0))).settled =
      (run 1 4445 initState [.errorEvt "boom"]).settled ∧
    (step 1 4445 (run 1 4445 initState [.errorEvt "boom"])
        (.exitEvt (some 0))).settleCalls =
      (run 1 4445 initState [.errorEvt "boom"]).settleCalls ∧
    (step 1 4445 (run 1 4445 initState [.errorEvt "boom"])
        (.exitEvt (some 0))).probeStarted =
      (run 1 4445 initState [.errorEvt "boom"]).probeStarted ∧
    (step 1 4445 (run 1 4445 initState [.errorEvt "boom"])
        (.exitEvt (some 0))).probeDone =
      (run 1 4445 initState [.errorEvt "boom"]).probeDone ∧
    (step 1 4445 (run 1 4445 initState [.errorEvt "boom"])
        (.exitEvt (some 0))).isFirst = false :=
  c5_amended_guard_freezes_outcome 1 4445
    (run 1 4445 initState [.errorEvt "boom"]) (.exitEvt (some 0))
    (by decide) (by decide)

/-- C8: whenever the promise of an admissible invocation resolves, the
resolved value is the handle of the process spawned at the start of that
invocation; nothing else is ever passed to `resolve`. -/
theorem c8_resolves_with_spawned_handle (so : Except String Nat) (port : Nat)
    (t : List Event) (v : Nat)
    (hv : validModel so port t = true)
    (hr : (startDriverBinModel so port t).settled = some (.resolve v)) :
    so = .ok v := by
  cases so with
  | error e => simp [startDriverBinModel, settle, initState] at hr
  | ok prog =>
    have hv' : validFrom prog port initState t = true := hv
    have hinv := inv_run prog port hv' (inv_init prog port)
    have hm : startDriverBinModel (.ok prog) port t =
        run prog port initState t := rfl
    rw [hm] at hr
    rw [hinv.resolve_prog v hr]

theorem c8_witness : (Except.ok 7 : Except String Nat) = .ok 7 :=
  c8_resolves_with_spawned_handle (.ok 7) 4445 [.stdoutData "up", .portOk] 7
    (by decide) (by decide)

theorem run_stderr_concat (prog port : Nat) (s : DriverState)
    (t : List Event) :
    (run prog port s t).stderr = s.stderr ++ dataConcat t := by
  induction t generalizing s with
  | nil => simp [run, dataConcat]
  | cons e t ih =>
    rw [run]
    cases e with
    | stdoutData d =>
      cases hf : s.isFirst with
      | true =>
        rw [step_stdout_of_first prog port d hf, ih]
        simp [dataConcat, String.append_assoc]
      | false =>
        rw [step_stdout_of_notFirst prog port d hf, ih]
        simp [dataConcat, String.append_assoc]
    | stderrData d =>
      rw [step_stderr prog port d, ih]
      simp [dataConcat, String.append_assoc]
    | errorEvt err =>
      cases hf : s.isFirst with
      | true =>
        rw [step_error_of_first prog port err hf, ih]
        simp [settle, dataConcat]
      | false =>
        rw [step_error_of_notFirst prog port err hf, ih]
        simp [dataConcat]
    | closeEvt =>
      rw [step_close prog port, ih]
      simp [dataConcat]
    | exitEvt c =>
      cases hf : s.isFirst with
      | false =>
        rw [step_exit_of_notFirst prog port c hf, ih]
        simp [dataConcat]
      | true =>
        by_cases hz : c = some 0
        · subst hz
          cases hm : errIndexZero s.stderr with
          | true =>
            rw [step_exit_marker prog port hf hm, ih]
            simp [settle, dataConcat]
          | false =>
            rw [step_exit_clean prog port hf hm, ih]
            simp [settle, dataConcat]
        · rw [step_exit_nonzero prog port hf hz, ih]
          simp [settle, dataConcat]
    | portOk =>
      rw [step_portOk prog port, ih]
      simp [settle, dataConcat]
    | portErr err =>
      rw [step_portErr prog port err, ih]
      simp [settle, dataConcat]

/-- C9: the accumulated buffer is the concatenation, in arrival order, of
all stdout and stderr chunk payloads (both handlers append to the one
`stderr` variable); and there is an admissible run in which the process
emits an `Error:`-prefixed chunk only on stdout, exits with code zero, and
the routine rejects (the stdout chunk started the port probe, whose failure
rejects; the clean exit itself is discarded by the guard). -/
theorem c9_single_shared_buffer (prog port : Nat) (t : List Event) :
    (run prog port initState t).stderr = dataConcat t ∧
    (validFrom 1 4445 initState
        [.stdoutData "Error: boom", .exitEvt (some 0),
          .portErr "timed out"] = true ∧
      (run 1 4445 initState
        [.stdoutData "Error: boom", .exitEvt (some 0),
          .portErr "timed out"]).settled =
        some (.reject (.portFail "timed out"))) := by
  refine ⟨?_, by decide, by decide⟩
  have h := run_stderr_concat prog port initState t
  simpa [initState] using h

/-- C6 counterexample: in the `ipc-example` handler the awaited
`startDriverBin` promise lies outside the try-catch, so its rejection (here
a spawn failure message) leaves the handler as an uncaught escaped error
instead of being caught and logged. -/
theorem c6_counterexample :
    ¬ ((ipcHandler (.error "Exit code: 1") (.ok "agent")).escaped = none) := by
  decide

/-- C6 amended: only failures of the automation block are caught at their
point of occurrence and logged; a rejection of `startDriverBin` is not
caught inside the handler and escapes it as an unhandled rejection. -/
theorem c6_amended_driver_rejection_escapes (p : Nat) (e : String)
    (a : Except String String) :
    (ipcHandler (.ok p) (.error e)).escaped = none ∧
    (ipcHandler (.ok p) (.error e)).caughtLogs =
      ["ERROR IN WEBDRIVER " ++ e] ∧
    (ipcHandler (.error e) a).escaped = some e ∧
    (ipcHandler (.error e) a).caughtLogs = [] := by
  cases a <;> simp [ipcHandler]

/-- C7 counterexample: when `startDriverBin` rejects, the handler dies
before `event.reply` and no `pong` reply is sent, so it is not true that
every inbound message produces exactly one reply. -/
theorem c7_counterexample :
    ¬ ((ipcHandler (.error "spawn ENOENT") (.ok "agent")).replies =
      ["pong"]) := by
  decide

/-- C7 amended: the handler sends exactly one `pong` reply whenever the
driver-spawn promise resolves (even if the automation block fails, whose
error is caught), and no reply at all when that promise rejects. -/
theorem c7_amended_reply_iff_driver_ok (p : Nat) (e : String)
    (a : Except String String) :
    (ipcHandler (.ok p) a).replies = ["pong"] ∧
    (ipcHandler (.error e) a).replies = [] := by
  cases a <;> simp [ipcHandler]
